import Mathlib

/-!
Shallow embedding of the Winnipeg Transit CLI script (src/script.py) for
verification of its resilient data-fetch pipeline: the retrying HTTP fetch
primitive `fetch_data_with_retries`, the decode stages `parse_bus_stops`,
`select_bus_stop` and `fetch_and_parse_schedule`, and the orchestration in
`main`.

Modelling conventions:
- JSON documents are the inductive `Json`; a response body that is not valid
  JSON (so that `response.json()` raises `JSONDecodeError`) is `Option.none`.
- The HTTP boundary is a `server : Nat → GetOutcome` giving, for each attempt
  number (0-based), what `requests.get` does on that attempt: return a
  response with some status code, raise `Timeout`, or raise `ConnectionError`.
  Other `RequestException` subclasses raised by `requests.get` itself are not
  modelled (on that path the `except RequestException` handler of the source reads
  a variable `response` that is unbound on the first attempt); no claim
  depends on them.
- `response.raise_for_status()` raises `HTTPError` exactly when the status
  code is in [400, 600).  `HTTPError` is a `RequestException` but not a
  `Timeout` or `ConnectionError`, so in the source it is caught by the second
  handler, which breaks out of the retry loop.
- Effects are made observable: the fetch primitive returns a `FetchTrace`
  recording how many attempts were made and the seconds slept between
  attempts; `main` returns a list of `Event`s recording which pipeline stages
  ran, the user-facing abort messages, and the rendered schedule output.
- Python truthiness (`if not x:`) is `truthy` on `Json` values and, for the
  fetch result, the fact that `requests.Response.__bool__` is `status_code <
  400` while `None` is falsy.
- Uncaught Python exceptions (KeyError outside a handler, TypeError from
  indexing or iterating a non-container, AttributeError from `.get` on a
  non-dict) are modelled as `Except.error` values naming the exception; they
  only arise on responses outside the service schema fixed by the spec.
-/

/-- A JSON value. Numbers are modelled as integers (no claim involves
non-integral JSON numbers). -/
inductive Json where
  | null
  | bool (b : Bool)
  | num (n : Int)
  | str (s : String)
  | arr (items : List Json)
  | obj (fields : List (String × Json))

/-- Python truthiness of a JSON value: `None`, `False`, `0`, `""`, `[]` and
an empty dict are falsy, everything else is truthy. -/
def truthy : Json → Bool
  | Json.null => false
  | Json.bool b => b
  | Json.num n => n != 0
  | Json.str s => s != ""
  | Json.arr items => !items.isEmpty
  | Json.obj fields => !fields.isEmpty

/-- Truthiness of an optional JSON value (`if not selected_stop:` where the
value is a decoded dict or `None`). -/
def optTruthy : Option Json → Bool
  | none => false
  | some j => truthy j

/-- Python subscript `j[k]`: the value under key `k` of a dict, `KeyError`
when the key is absent, `TypeError` when `j` is not a dict. -/
def pyIndex (j : Json) (k : String) : Except String Json :=
  match j with
  | Json.obj fields =>
      match fields.lookup k with
      | some v => Except.ok v
      | none => Except.error "KeyError"
  | _ => Except.error "TypeError"

/-- Python `j.get(k, default)`: the value under key `k` or `default` when the
key is absent; `AttributeError` when `j` is not a dict (lists and scalars
have no `.get`). -/
def pyDictGet (j : Json) (k : String) (default : Json) : Except String Json :=
  match j with
  | Json.obj fields => Except.ok ((fields.lookup k).getD default)
  | _ => Except.error "AttributeError"

/-- A chain of Python subscripts `j[k1][k2]...`, failing at the first key
that is absent (`KeyError`) or the first non-dict (`TypeError`). -/
def keyChain (j : Json) : List String → Except String Json
  | [] => Except.ok j
  | k :: ks =>
      match pyIndex j k with
      | Except.ok v => keyChain v ks
      | Except.error e => Except.error e

/-- An HTTP response as the fetch layer sees it: its status code and its
decoded JSON body (`none` when the body is not valid JSON, in which case
`response.json()` raises `JSONDecodeError`). -/
structure Response where
  status_code : Nat
  body : Option Json

/-- What `requests.get(url, timeout=10)` does on one attempt: return a
response, raise `Timeout`, or raise `ConnectionError`. -/
inductive GetOutcome where
  | response (r : Response)
  | timeout
  | connectionError

/-- A server behaviour: for each 0-based attempt number, the outcome of the
GET issued on that attempt. -/
def Server : Type := Nat → GetOutcome

/-- Retry configuration of the script: `RETRY_COUNT = 3`. -/
def RETRY_COUNT : Nat := 3

/-- Retry configuration of the script: `RETRY_DELAY = 5` seconds. -/
def RETRY_DELAY : Nat := 5

/-- The observable effects of one call to `fetch_data_with_retries`: how many
GET attempts were issued, the seconds slept between attempts (one entry per
`time.sleep(RETRY_DELAY)` call), and the returned value (`none` models the
Python `None` return). -/
structure FetchTrace where
  attempts : Nat
  sleeps : List Nat
  result : Option Response

/-- The body of the `for attempt in range(RETRY_COUNT)` loop of
`fetch_data_with_retries`, with `fuel` the remaining iterations, `a` the
attempts already made and `s` the sleeps already performed.  On a response,
`raise_for_status` raises `HTTPError` iff the status is in [400, 600); the
`except RequestException` handler then breaks out of the loop, reaching the
final `return None`.  On `Timeout` or `ConnectionError` the first handler
sleeps `RETRY_DELAY` seconds and continues with the next iteration.  A 2xx
(or any sub-400) response is returned immediately. -/
def fetchLoop (server : Server) : Nat → Nat → List Nat → FetchTrace
  | 0, a, s => ⟨a, s, none⟩
  | fuel + 1, a, s =>
      match server a with
      | GetOutcome.response r =>
          if 400 ≤ r.status_code ∧ r.status_code < 600 then
            ⟨a + 1, s, none⟩
          else
            ⟨a + 1, s, some r⟩
      | GetOutcome.timeout => fetchLoop server fuel (a + 1) (s ++ [RETRY_DELAY])
      | GetOutcome.connectionError => fetchLoop server fuel (a + 1) (s ++ [RETRY_DELAY])

/-- Model of `fetch_data_with_retries(url)` against a given server behaviour: run the
retry loop with `RETRY_COUNT` iterations, no attempts made and no sleeps
performed yet.  The URL string itself is absorbed into the server behaviour
(each distinct URL is a distinct `Server`). -/
def fetch_data_with_retries (server : Server) : FetchTrace :=
  fetchLoop server RETRY_COUNT 0 []

/-- Model of `parse_bus_stops(response)`: on a `JSONDecodeError` the handler returns
an empty list; otherwise `resp_stops.get("stops", [])`.  A top-level body that is not
a JSON object makes `.get` raise `AttributeError`, which the source does not
catch. -/
def parse_bus_stops (response : Response) : Except String Json :=
  match response.body with
  | none => Except.ok (Json.arr [])
  | some j => pyDictGet j "stops" (Json.arr [])

/-- Model of `select_bus_stop(stops)` with the interactive boundary abstracted: the
`selectionInput` is the result of `int(input(...))`, `none` when `int`
raised `ValueError`.  An empty (falsy) stop collection returns `None`
immediately; an out-of-range choice raises `ValueError`, caught by the
handler that returns `None`.  A truthy non-list `stops` would make
`enumerate` raise `TypeError`, which the source does not catch. -/
def select_bus_stop (stops : Json) (selectionInput : Option Int) : Except String (Option Json) :=
  if truthy stops = false then Except.ok none
  else
    match stops with
    | Json.arr xs =>
        match selectionInput with
        | none => Except.ok none
        | some n =>
            let choice : Int := n - 1
            if 0 ≤ choice ∧ choice < (xs.length : Int) then Except.ok xs[choice.toNat]?
            else Except.ok none
    | _ => Except.error "TypeError"

/-- Model of `fetch_and_parse_schedule(stop_id, api_key)`: fetch the schedule URL
with retries; on a failed fetch or a `JSONDecodeError` return an empty list;
otherwise chain `.get("stop-schedule", ...)` and `.get("route-schedules", [])`
on the decoded body, where `.get` on a non-dict raises an uncaught
`AttributeError`. -/
def fetch_and_parse_schedule (server : Server) : Except String Json :=
  match (fetch_data_with_retries server).result with
  | none => Except.ok (Json.arr [])
  | some resp =>
      match resp.body with
      | none => Except.ok (Json.arr [])
      | some j =>
          match pyDictGet j "stop-schedule" (Json.obj []) with
          | Except.error e => Except.error e
          | Except.ok ss => pyDictGet ss "route-schedules" (Json.arr [])

/-- An observable event of a run of `main`: a pipeline stage being invoked, a
user-facing console message, a rendered schedule header or line, or an
uncaught Python exception escaping `main`. -/
inductive Event where
  | stageFetchStops
  | stageParseStops
  | stageSelectStop
  | stageFetchSchedule
  | stageDisplay
  | message (text : String)
  | scheduleHeader (stop_name : Json)
  | scheduleLine (route entry : Json)
  | uncaughtError (exn : String)

/-- The per-entry body of the inner loop of `display_schedule`: look up
the scheduled arrival time under the keys times, arrival, scheduled, then the
estimated one, then the route number (evaluated inside the printed f-string); a
`KeyError` at any of them is caught and prints the format message, while a
`TypeError` (subscripting a non-dict) propagates.  The rendered line itself
(parsed clock times and lateness colour) is presentation and is carried as
the raw `route` and `entry` records; `dateutil.parser.parse` is external. -/
def entryEvent (route entry : Json) : Except String Event :=
  match keyChain entry ["times", "arrival", "scheduled"] with
  | Except.error "KeyError" => Except.ok (Event.message "Unexpected data format in schedule.")
  | Except.error e => Except.error e
  | Except.ok _ =>
      match keyChain entry ["times", "arrival", "estimated"] with
      | Except.error "KeyError" => Except.ok (Event.message "Unexpected data format in schedule.")
      | Except.error e => Except.error e
      | Except.ok _ =>
          match keyChain route ["route", "number"] with
          | Except.error "KeyError" => Except.ok (Event.message "Unexpected data format in schedule.")
          | Except.error e => Except.error e
          | Except.ok _ => Except.ok (Event.scheduleLine route entry)

/-- The inner loop over the scheduled-stops list of one route: emit one
event per entry; an uncaught exception cuts the iteration short (the `true`
flag reports that the run crashed there). -/
def displayEntries (route : Json) : List Json → List Event × Bool
  | [] => ([], false)
  | entry :: rest =>
      match entryEvent route entry with
      | Except.ok e =>
          match displayEntries route rest with
          | (es, crashed) => (e :: es, crashed)
      | Except.error exn => ([Event.uncaughtError exn], true)

/-- The outer loop over routes in `display_schedule`: the subscript of the
route record at key scheduled-stops is evaluated outside any handler, so a `KeyError`
or `TypeError` there, or iterating a non-list, aborts the remaining
iteration. -/
def displayRoutes : List Json → List Event
  | [] => []
  | route :: rest =>
      match pyIndex route "scheduled-stops" with
      | Except.error exn => [Event.uncaughtError exn]
      | Except.ok (Json.arr entries) =>
          match displayEntries route entries with
          | (es, true) => es
          | (es, false) => es ++ displayRoutes rest
      | Except.ok _ => [Event.uncaughtError "TypeError"]

/-- Model of `display_schedule(stop_name, schedules)`: print the header, then iterate
the route schedules (iterating a non-list raises an uncaught `TypeError`
after the header is already printed). -/
def display_schedule (stop_name : Json) (schedules : Json) : List Event :=
  Event.scheduleHeader stop_name ::
  match schedules with
  | Json.arr routes => displayRoutes routes
  | _ => [Event.uncaughtError "TypeError"]

/-- The environment of one run of `main`: the server behaviour behind the
stop-search URL, the stop-selection input (the result of `int(input(...))`,
`none` when `int` raised `ValueError`), and the server behaviour behind the
schedule URL as a function of the selected stop key.  `user_input()` loops
until valid and its outputs only feed the stop-search URL, which the server
abstraction absorbs. -/
structure Env where
  stopsServer : Server
  selectionInput : Option Int
  scheduleServer : Json → Server

namespace Script

/-- Model of `main()`: the pipeline orchestrator.  Each stage marker event records
that stage being invoked; after each stage the source checks the
falsy sentinel of that stage (`if not response:` uses `requests.Response.__bool__`, which
is `status_code < 400`; `if not stops:`, `if not selected_stop:` and `if not
schedules:` are Python truthiness) and aborts with a user-facing message. -/
def main (env : Env) : List Event :=
  Event.stageFetchStops ::
  match (fetch_data_with_retries env.stopsServer).result with
  | none => [Event.message "Failed to fetch bus stops."]
  | some resp =>
      if resp.status_code < 400 then
        Event.stageParseStops ::
        match parse_bus_stops resp with
        | Except.error exn => [Event.uncaughtError exn]
        | Except.ok stops =>
            if truthy stops then
              Event.stageSelectStop ::
              match select_bus_stop stops env.selectionInput with
              | Except.error exn => [Event.uncaughtError exn]
              | Except.ok none => [Event.message "No valid bus stop selected."]
              | Except.ok (some sel) =>
                  if truthy sel then
                    match pyIndex sel "key" with
                    | Except.error exn => [Event.uncaughtError exn]
                    | Except.ok key =>
                        Event.stageFetchSchedule ::
                        match fetch_and_parse_schedule (env.scheduleServer key) with
                        | Except.error exn => [Event.uncaughtError exn]
                        | Except.ok schedules =>
                            if truthy schedules then
                              match pyIndex sel "name" with
                              | Except.error exn => [Event.uncaughtError exn]
                              | Except.ok nm =>
                                  Event.stageDisplay :: display_schedule nm schedules
                            else [Event.message "Failed to fetch the bus schedule."]
                  else [Event.message "No valid bus stop selected."]
            else [Event.message "No bus stops found in the specified radius."]
      else [Event.message "Failed to fetch bus stops."]

end Script

/-!
Theorems.  The first group settles the Retrying Fetcher claims against
`fetch_data_with_retries`; the last settles the orchestration claim against
`Script.main`.
-/

/-- One unfolding of the retry loop at positive fuel. -/
theorem fetchLoop_succ (server : Server) (fuel a : Nat) (s : List Nat) :
    fetchLoop server (fuel + 1) a s =
      match server a with
      | GetOutcome.response r =>
          if 400 ≤ r.status_code ∧ r.status_code < 600 then ⟨a + 1, s, none⟩
          else ⟨a + 1, s, some r⟩
      | GetOutcome.timeout => fetchLoop server fuel (a + 1) (s ++ [RETRY_DELAY])
      | GetOutcome.connectionError => fetchLoop server fuel (a + 1) (s ++ [RETRY_DELAY]) := rfl

/-- Running the retry loop against a server that raises `Timeout` or
`ConnectionError` on the next `k` attempts and then returns a non-error
response performs `k + 1` further attempts with `k` sleeps of `RETRY_DELAY`
seconds in between, and returns that response. -/
theorem fetchLoop_transient (server : Server) :
    ∀ (k fuel a : Nat) (s : List Nat) (r : Response),
      k < fuel →
      (∀ i, i < k → server (a + i) = GetOutcome.timeout ∨ server (a + i) = GetOutcome.connectionError) →
      server (a + k) = GetOutcome.response r →
      r.status_code < 400 →
      fetchLoop server fuel a s = ⟨a + k + 1, s ++ List.replicate k RETRY_DELAY, some r⟩ := by
  intro k
  induction k with
  | zero =>
      intro fuel a s r hk hfail hsucc hok
      obtain ⟨f, rfl⟩ : ∃ f, fuel = f + 1 := ⟨fuel - 1, by omega⟩
      rw [Nat.add_zero] at hsucc
      rw [fetchLoop_succ, hsucc]
      have hcond : ¬ (400 ≤ r.status_code ∧ r.status_code < 600) := by omega
      simp [hcond]
  | succ k ih =>
      intro fuel a s r hk hfail hsucc hok
      obtain ⟨f, rfl⟩ : ∃ f, fuel = f + 1 := ⟨fuel - 1, by omega⟩
      have h0 := hfail 0 (Nat.succ_pos k)
      rw [Nat.add_zero] at h0
      have hfail2 : ∀ i, i < k →
          server (a + 1 + i) = GetOutcome.timeout ∨ server (a + 1 + i) = GetOutcome.connectionError := by
        intro i hi
        have := hfail (i + 1) (by omega)
        rwa [show a + (i + 1) = a + 1 + i by omega] at this
      have hsucc2 : server (a + 1 + k) = GetOutcome.response r := by
        rwa [show a + (k + 1) = a + 1 + k by omega] at hsucc
      have hrec := ih f (a + 1) (s ++ [RETRY_DELAY]) r (by omega) hfail2 hsucc2 hok
      rcases h0 with h0 | h0 <;>
        rw [fetchLoop_succ, h0, hrec] <;>
        · simp only [FetchTrace.mk.injEq]
          refine ⟨by omega, ?_, trivial⟩
          simp [List.replicate_succ, List.append_assoc]

/-- A server that returns status 500 on every attempt. -/
def server500 : Server := fun _ => GetOutcome.response ⟨500, none⟩

/-- C1 (counterexample): against a server that returns 5xx on every attempt,
the claim says `fetch_data_with_retries` makes exactly `RETRY_COUNT` (= 3)
attempts; in the code `raise_for_status` turns the 5xx into an `HTTPError`,
the `except RequestException` handler breaks out of the loop, and only 1
attempt is ever made. -/
theorem fetch_5xx_always_counterexample :
    ¬ ((fetch_data_with_retries server500).attempts = RETRY_COUNT) := by decide

/-- C1 (amended): a 5xx response is a non-retried failure, exactly like a
4xx: for every server whose first attempt yields a 5xx status,
`fetch_data_with_retries` makes exactly 1 attempt, sleeps no retry delay,
and returns `None`; only `Timeout` and `ConnectionError` are retried. -/
theorem fetch_5xx_aborts_immediately (server : Server) (r : Response)
    (h0 : server 0 = GetOutcome.response r)
    (h1 : 500 ≤ r.status_code) (h2 : r.status_code < 600) :
    fetch_data_with_retries server = ⟨1, [], none⟩ := by
  have hcond : 400 ≤ r.status_code ∧ r.status_code < 600 := ⟨by omega, h2⟩
  show fetchLoop server (2 + 1) 0 [] = ⟨1, [], none⟩
  rw [fetchLoop_succ, h0]
  simp [hcond]

/-- C1 (witness): the amended theorem applied to the always-500 server. -/
theorem fetch_5xx_aborts_immediately_witness :
    fetch_data_with_retries server500 = ⟨1, [], none⟩ :=
  fetch_5xx_aborts_immediately server500 ⟨500, none⟩ rfl (by decide) (by decide)

/-- C2: for every server whose first response is a 4xx client error,
`fetch_data_with_retries` makes exactly 1 HTTP attempt and returns `None`,
performing no retry and no retry delay: `raise_for_status` raises
`HTTPError`, the `except RequestException` handler breaks out of the retry
loop, and the function falls through to `return None`. -/
theorem fetch_4xx_single_attempt (server : Server) (r : Response)
    (h0 : server 0 = GetOutcome.response r)
    (h1 : 400 ≤ r.status_code) (h2 : r.status_code < 500) :
    fetch_data_with_retries server = ⟨1, [], none⟩ := by
  have hcond : 400 ≤ r.status_code ∧ r.status_code < 600 := ⟨h1, by omega⟩
  show fetchLoop server (2 + 1) 0 [] = ⟨1, [], none⟩
  rw [fetchLoop_succ, h0]
  simp [hcond]

/-- A server that returns status 404 on every attempt. -/
def server404 : Server := fun _ => GetOutcome.response ⟨404, none⟩

/-- C2 (witness): the theorem applied to the always-404 server. -/
theorem fetch_4xx_single_attempt_witness :
    fetch_data_with_retries server404 = ⟨1, [], none⟩ :=
  fetch_4xx_single_attempt server404 ⟨404, none⟩ rfl (by decide) (by decide)

/-- C3: for every server that raises a connection timeout or connection
error on the first `k < RETRY_COUNT` attempts and then returns a 2xx
response, `fetch_data_with_retries` makes exactly `k + 1` attempts, sleeps
the fixed `RETRY_DELAY` between consecutive attempts (`k` sleeps of
`RETRY_DELAY` seconds each), and returns that successful response
immediately on the first 2xx. -/
theorem fetch_transient_then_success (server : Server) (k : Nat) (r : Response)
    (hk : k < RETRY_COUNT)
    (hfail : ∀ i, i < k → server i = GetOutcome.timeout ∨ server i = GetOutcome.connectionError)
    (hsucc : server k = GetOutcome.response r)
    (h2a : 200 ≤ r.status_code) (h2b : r.status_code < 300) :
    fetch_data_with_retries server = ⟨k + 1, List.replicate k RETRY_DELAY, some r⟩ := by
  have := fetchLoop_transient server k RETRY_COUNT 0 [] r hk
    (by intro i hi; simpa using hfail i hi) (by simpa using hsucc) (by omega)
  simpa [fetch_data_with_retries] using this

/-- A server that raises `Timeout` on the first attempt and then returns a
200 response. -/
def serverTimeoutThenOk : Server
  | 0 => GetOutcome.timeout
  | _ + 1 => GetOutcome.response ⟨200, none⟩

/-- C3 (witness): the theorem applied to a server that times out once and
then succeeds (`k = 1`): 2 attempts, one `RETRY_DELAY` sleep. -/
theorem fetch_transient_then_success_witness :
    fetch_data_with_retries serverTimeoutThenOk = ⟨2, List.replicate 1 RETRY_DELAY, some ⟨200, none⟩⟩ :=
  fetch_transient_then_success serverTimeoutThenOk 1 ⟨200, none⟩ (by decide)
    (fun i hi => by
      have h0 : i = 0 := Nat.lt_one_iff.mp hi
      subst h0
      exact Or.inl rfl)
    rfl (by decide) (by decide)

/-- C4: whenever a stage of `main` yields its empty/`None` sentinel (the
fetch returns `None`, the parsed stop list is falsy, no truthy stop is
selected, or the schedule list is falsy), the run emits exactly the stage
markers up to and including the failed stage followed by the corresponding
user-facing abort message: no subsequent stage marker appears, and in
particular no `stageDisplay`, `scheduleHeader` or `scheduleLine` event ever
occurs after a failed stage. -/
theorem main_short_circuits_on_sentinel (env : Env) :
    ((fetch_data_with_retries env.stopsServer).result = none →
        Script.main env = [Event.stageFetchStops, Event.message "Failed to fetch bus stops."])
  ∧ (∀ resp stops,
        (fetch_data_with_retries env.stopsServer).result = some resp →
        resp.status_code < 400 →
        parse_bus_stops resp = Except.ok stops →
        truthy stops = false →
        Script.main env = [Event.stageFetchStops, Event.stageParseStops,
            Event.message "No bus stops found in the specified radius."])
  ∧ (∀ resp stops sel,
        (fetch_data_with_retries env.stopsServer).result = some resp →
        resp.status_code < 400 →
        parse_bus_stops resp = Except.ok stops →
        truthy stops = true →
        select_bus_stop stops env.selectionInput = Except.ok sel →
        optTruthy sel = false →
        Script.main env = [Event.stageFetchStops, Event.stageParseStops, Event.stageSelectStop,
            Event.message "No valid bus stop selected."])
  ∧ (∀ resp stops sel key schedules,
        (fetch_data_with_retries env.stopsServer).result = some resp →
        resp.status_code < 400 →
        parse_bus_stops resp = Except.ok stops →
        truthy stops = true →
        select_bus_stop stops env.selectionInput = Except.ok (some sel) →
        truthy sel = true →
        pyIndex sel "key" = Except.ok key →
        fetch_and_parse_schedule (env.scheduleServer key) = Except.ok schedules →
        truthy schedules = false →
        Script.main env = [Event.stageFetchStops, Event.stageParseStops, Event.stageSelectStop,
            Event.stageFetchSchedule, Event.message "Failed to fetch the bus schedule."]) := by
  refine ⟨?_, ?_, ?_, ?_⟩
  · intro h
    simp [Script.main, h]
  · intro resp stops h1 h2 h3 h4
    simp [Script.main, h1, h2, h3, h4]
  · intro resp stops sel h1 h2 h3 h4 h5 h6
    cases sel with
    | none => simp [Script.main, h1, h2, h3, h4, h5]
    | some j =>
        have hj : truthy j = false := by simpa [optTruthy] using h6
        simp [Script.main, h1, h2, h3, h4, h5, hj]
  · intro resp stops sel key schedules h1 h2 h3 h4 h5 h6 h7 h8 h9
    simp [Script.main, h1, h2, h3, h4, h5, h6, h7, h8, h9]

/-- An environment whose stop-search server never answers (always
`Timeout`), so the fetch stage exhausts its retries and returns `None`. -/
def envFetchFail : Env :=
  ⟨fun _ => GetOutcome.timeout, none, fun _ => fun _ => GetOutcome.timeout⟩

/-- C4 (witness): the theorem applied to `envFetchFail`, whose fetch stage
fails; the run is exactly the fetch marker and the abort message. -/
theorem main_short_circuits_on_sentinel_witness :
    Script.main envFetchFail = [Event.stageFetchStops, Event.message "Failed to fetch bus stops."] :=
  (main_short_circuits_on_sentinel envFetchFail).1 rfl
